import Mathlib

/-!
Verification of the tile streaming pipeline of
`Source/Scene/CentralBody.js` (quad-tree tile state machine, throttled
stage queues, LRU texture cache policy).

The JavaScript is shallowly embedded: mutable tile objects become a map
from a tile identifier to a record of the mutable fields, the
`CentralBody` instance fields become a `World` record, and each method
becomes a state-passing function.  Collaborator modules that are not in
the source tree (`Queue.js`: a FIFO with `enqueue`/`dequeue`/`contains`;
`JulianDate.js`: a time point with `lessThan` and `getSecondsDifference`)
are modelled minimally from their use sites: time is a natural-number
logical clock, a queue is a list with enqueue at the back.
-/

/-- Tile pipeline states, from `TileState.js` as used by `CentralBody.js`. -/
inductive TileState where
  | READY
  | IMAGE_LOADING
  | IMAGE_LOADED
  | IMAGE_FAILED
  | IMAGE_INVALID
  | REPROJECTING
  | REPROJECTED
  | TEXTURE_LOADING
  | TEXTURE_LOADED
deriving DecidableEq, Repr

/-- Image payloads.  `handle` is the handle returned by
`dayTileProvider.loadTileImage`, `base` the 1x1 canvas made by
`_createBaseTile`, `reprojected i` the result of `projection.toWgs84` on
`i` (the projection utility is an opaque collaborator). -/
inductive Image where
  | handle
  | base
  | reprojected (i : Image)
deriving DecidableEq, Repr

/-- Map projections as used by the pipeline: the canonical `Projections.WGS84`
and the imagery provider's projection (opaque). -/
inductive Projection where
  | wgs84
  | provider
deriving DecidableEq, Repr

/-- GPU texture handles are opaque; we tag them with a number. -/
abbrev Texture := Nat

/-- Logical time standing for `JulianDate`; `lessThan` is `<` and
`a.getSecondsDifference(b)` is `b - a`. -/
abbrev JDate := Nat

/-- The mutable fields of one tile object that the pipeline reads or
writes (`tile.state` and `tile._failCount` start out `undefined`,
modelled by `Option`/zero). -/
structure TileData where
  zoom : Nat
  x : Nat
  y : Nat
  state : Option TileState := none
  image : Option Image := none
  texture : Option Texture := none
  projection : Option Projection := none
  failCount : Nat := 0
deriving DecidableEq, Repr

/-- JavaScript `a < b` where `b` may be `undefined`: a comparison with
`undefined` is `false` (NaN semantics). -/
def jsLtU (a : Nat) (b : Option Nat) : Bool :=
  match b with
  | some b => a < b
  | none => false

/-- JavaScript `a > b` where `b` may be `undefined`: `false` when `b` is
`undefined`. -/
def jsGtU (a : Nat) (b : Option Nat) : Bool :=
  match b with
  | some b => b < a
  | none => false

/-- The `CentralBody` instance fields involved in the streaming pipeline.
Tiles are named by a `Nat` identifier; the three stage queues hold tile
identifiers, FIFO with the head at the front.  `maxTileFailCountU`
stands for the expression `this._maxTileFailCount` read by
`_processTile`: no code ever assigns that property, so it is `none`
(undefined) in every reachable state, while the constructor's public
tunables `perTileMaxFailCount` and `maxTileFailCount` are separate
fields. -/
structure World where
  tiles : Nat → TileData
  imageQueue : List Nat := []
  reprojectQueue : List Nat := []
  textureQueue : List Nat := []
  renderQueue : List Nat := []
  tileFailCount : Nat := 0
  lastFailedTime : Option JDate := none
  maxTileFailCountU : Option Nat := none
  perTileMaxFailCount : Nat := 3
  maxTileFailCount : Nat := 30
  failedTileRetryTime : Nat := 30
  imageThrottleLimit : Nat := 15
  reprojectThrottleLimit : Nat := 10
  textureThrottleLimit : Nat := 10
  providerZoomMin : Nat := 0

/-- The `World` produced by the `CentralBody` constructor around a given
tile population: empty queues and the constructor's default tunables. -/
def mkWorld (ts : Nat → TileData) (zoomMin : Nat) : World :=
  { tiles := ts, providerZoomMin := zoomMin }

/-- Point update of the tile map (mutation of one tile object). -/
def updTile (ts : Nat → TileData) (i : Nat) (f : TileData → TileData) : Nat → TileData :=
  fun j => if j = i then f (ts j) else ts j

/-- Membership of a tile in any of the three stage queues, the guard at
the top of `_processTile`. -/
def inAnyQueue (w : World) (tid : Nat) : Bool :=
  w.imageQueue.contains tid || w.reprojectQueue.contains tid || w.textureQueue.contains tid

/-- `CentralBody.prototype._processTile`, lines 910-944.  `now` is the
`new JulianDate()` taken inside the call.  Note the source compares
against `this._maxTileFailCount`, which is never assigned
(`maxTileFailCountU`), not against the constructor's
`perTileMaxFailCount`/`maxTileFailCount`. -/
def processTile (now : JDate) (w : World) (tid : Nat) : World :=
  if inAnyQueue w tid then w
  else
    let t := w.tiles tid
    let maxFailed := jsGtU w.tileFailCount w.maxTileFailCountU
    let requestFailed := decide (t.state = some .IMAGE_FAILED) && jsLtU t.failCount w.maxTileFailCountU
    let maxTimePassed :=
      match w.lastFailedTime with
      | none => false
      | some lf => decide (((now : Int) - (lf : Int)) ≥ (w.failedTileRetryTime : Int))
    let retry := maxTimePassed || (requestFailed && !maxFailed)
    if t.state = none ∨ t.state = some .READY then
      { w with imageQueue := w.imageQueue ++ [tid],
               tiles := updTile w.tiles tid (fun t => { t with state := some .IMAGE_LOADING }) }
    else if t.state = some .IMAGE_LOADED then
      { w with reprojectQueue := w.reprojectQueue ++ [tid],
               tiles := updTile w.tiles tid (fun t => { t with state := some .REPROJECTING }) }
    else if t.state = some .REPROJECTED then
      { w with textureQueue := w.textureQueue ++ [tid],
               tiles := updTile w.tiles tid (fun t => { t with state := some .TEXTURE_LOADING }) }
    else if retry then
      let w :=
        if maxTimePassed then
          { w with tiles := updTile w.tiles tid (fun t => { t with failCount := 0 }),
                   tileFailCount := 0 }
        else w
      { w with imageQueue := w.imageQueue ++ [tid],
               tiles := updTile w.tiles tid (fun t => { t with state := some .IMAGE_LOADING }) }
    else if t.state = some .IMAGE_INVALID ∧ t.image ≠ none then
      { w with tiles := updTile w.tiles tid (fun t => { t with image := none }) }
    else w

/-- Loop body of `_throttleImages` applied to a dequeued tile (`cull`
is `this._cull(tile, state)` for the frame's camera state).  When not
culled, the root-tile special case builds the base tile, otherwise
`_fetchImage` is issued: `tile.image` holds the returned handle and the
provider projection is filled in if the tile has none; the state stays
`IMAGE_LOADING` until the asynchronous callback fires. -/
def imageStageBody (cull : Nat → Bool) (w : World) (tid : Nat) : World :=
  if cull tid then
    { w with tiles := updTile w.tiles tid (fun t => { t with state := some .READY }) }
  else
    let t := w.tiles tid
    if w.providerZoomMin ≠ 0 ∧ t.zoom = 0 ∧ t.x = 0 ∧ t.y = 0 then
      { w with tiles := updTile w.tiles tid (fun t =>
          { t with image := some .base, projection := some .wgs84,
                   state := some .IMAGE_LOADED }) }
    else
      { w with tiles := updTile w.tiles tid (fun t =>
          { t with image := some .handle,
                   projection := if t.projection = none then some .provider else t.projection }) }

/-- Loop body of `_throttleReprojection` applied to a dequeued tile:
culled tiles are discarded and reset, otherwise the image is reprojected
to WGS84. -/
def reprojectStageBody (cull : Nat → Bool) (w : World) (tid : Nat) : World :=
  if cull tid then
    { w with tiles := updTile w.tiles tid (fun t =>
        { t with image := none, state := some .READY }) }
  else
    { w with tiles := updTile w.tiles tid (fun t =>
        { t with image := t.image.map Image.reprojected,
                 state := some .REPROJECTED, projection := some .wgs84 }) }

/-- Loop body of `_throttleTextures` applied to a dequeued tile: culled
or image-less tiles are discarded and reset, otherwise a texture is
acquired from the cache, filled from the image, and the CPU-side image
payload is released.  The acquired texture handle is opaque; we tag it
with the tile identifier. -/
def textureStageBody (cull : Nat → Bool) (w : World) (tid : Nat) : World :=
  if cull tid ∨ (w.tiles tid).image = none then
    { w with tiles := updTile w.tiles tid (fun t =>
        { t with image := none, state := some .READY }) }
  else
    { w with tiles := updTile w.tiles tid (fun t =>
        { t with texture := some tid, state := some .TEXTURE_LOADED, image := none }) }

/-- Drain loop shared shape: `for (i = 0, len = q.length; i < len && i < limit; ++i)`
dequeues and processes `min len limit` items; the fuel argument is that
minimum.  This instance drains the image queue. -/
def runImageDrain (cull : Nat → Bool) : Nat → World → World
  | 0, w => w
  | k + 1, w =>
    match w.imageQueue with
    | [] => w
    | tid :: rest => runImageDrain cull k (imageStageBody cull { w with imageQueue := rest } tid)

/-- `CentralBody.prototype._throttleImages`, lines 837-857. -/
def throttleImages (cull : Nat → Bool) (w : World) : World :=
  runImageDrain cull (min w.imageQueue.length w.imageThrottleLimit) w

/-- Drain loop of the reprojection queue. -/
def runReprojectDrain (cull : Nat → Bool) : Nat → World → World
  | 0, w => w
  | k + 1, w =>
    match w.reprojectQueue with
    | [] => w
    | tid :: rest => runReprojectDrain cull k (reprojectStageBody cull { w with reprojectQueue := rest } tid)

/-- `CentralBody.prototype._throttleReprojection`, lines 869-883. -/
def throttleReprojection (cull : Nat → Bool) (w : World) : World :=
  runReprojectDrain cull (min w.reprojectQueue.length w.reprojectThrottleLimit) w

/-- Drain loop of the texture-upload queue. -/
def runTextureDrain (cull : Nat → Bool) : Nat → World → World
  | 0, w => w
  | k + 1, w =>
    match w.textureQueue with
    | [] => w
    | tid :: rest => runTextureDrain cull k (textureStageBody cull { w with textureQueue := rest } tid)

/-- `CentralBody.prototype._throttleTextures`, lines 885-908. -/
def throttleTextures (cull : Nat → Bool) (w : World) : World :=
  runTextureDrain cull (min w.textureQueue.length w.textureThrottleLimit) w

/-- The `onload` closure of `_fetchImage`: the asynchronous image request
for `tid` completed. -/
def onload (w : World) (tid : Nat) : World :=
  { w with tiles := updTile w.tiles tid (fun t => { t with state := some .IMAGE_LOADED }) }

/-- The `onerror` closure of `_fetchImage`: bump the tile's fail count
(`undefined` counts as zero) and the global counter, record the failure
time, mark the tile failed. -/
def onerror (now : JDate) (w : World) (tid : Nat) : World :=
  { w with tiles := updTile w.tiles tid (fun t =>
      { t with failCount := t.failCount + 1, state := some .IMAGE_FAILED }),
           tileFailCount := w.tileFailCount + 1,
           lastFailedTime := some now }

/-- The `oninvalid` closure of `_fetchImage`. -/
def oninvalid (w : World) (tid : Nat) : World :=
  { w with tiles := updTile w.tiles tid (fun t => { t with state := some .IMAGE_INVALID }) }

/-- The pipeline portion of `CentralBody.prototype.update` (lines
1705-1740): the three stage drains run in the fixed order image,
reprojection, texture, and only then does the tree traversal run, which
is where `_processTile` calls happen.  `trav` abstracts the traversal
as the sequence of tiles `_processTile` is invoked on. -/
def updateFrame (cull : Nat → Bool) (trav : List Nat) (now : JDate) (w : World) : World :=
  trav.foldl (processTile now)
    (throttleTextures cull (throttleReprojection cull (throttleImages cull w)))

/-- The stage queues are pairwise disjoint: no tile identifier sits in
two of them. -/
def QueueInv (w : World) : Prop :=
  w.imageQueue.Disjoint w.reprojectQueue ∧
  w.imageQueue.Disjoint w.textureQueue ∧
  w.reprojectQueue.Disjoint w.textureQueue

/-!
The texture cache policy (`TileTextureCachePolicy`, lines 51-108) and
the `remove` callback installed by `_createTextureCache` (lines
753-776).  The wrapper `Cache.js` is not in the source tree; per the
spec's cache contract it dispatches an acquire to `hit` when an entry
with the key's name exists and to `miss` otherwise, so cache behaviour
is settled against the two policy methods, with an operation type
covering both.  Tiles here are named by their quad-tree path from the
root (`tile.parent` drops the head of the path, `tile.zoom` is the path
length), and the cache's backing JavaScript object is an
insertion-ordered association list with unique names, matching
`Object.keys` enumeration.
-/

/-- Quad-tree tile identifier: the path from the root; the root is `[]`,
`tile.parent` of `x :: p` is `p`. -/
abbrev TileId := List Nat

/-- Mutable tile fields touched by the cache policy and the remove
callback (`_lastHit` starts out undefined). -/
structure CTile where
  lastHit : Option JDate := none
  state : Option TileState := none
  texture : Option Texture := none
  projection : Option Projection := none
deriving DecidableEq, Repr

/-- Point update of the cache-side tile map. -/
def updCTile (ts : TileId → CTile) (i : TileId) (f : CTile → CTile) : TileId → CTile :=
  fun j => if j = i then f (ts j) else ts j

/-- The walk in `TileTextureCachePolicy.prototype.hit` (lines 63-71):
`current = object.key; while (current) { current._lastHit = time; current = current.parent; }`
stamps the key tile and every ancestor up to the root. -/
def touchChain (ts : TileId → CTile) (tid : TileId) (time : JDate) : TileId → CTile :=
  match tid with
  | [] => updCTile ts [] (fun t => { t with lastHit := some time })
  | x :: p => touchChain (updCTile ts (x :: p) (fun t => { t with lastHit := some time })) p time

/-- A cache entry (`property`): the tile it belongs to and the fetched
texture. -/
structure CEntry where
  key : TileId
  value : Texture
deriving DecidableEq, Repr

/-- The cache policy's world: the tile objects, the backing object's
entries in insertion order, the policy's `_count` and `_limit` (the
constructor passes `_textureCacheLimit = 512`). -/
structure CWorld where
  tiles : TileId → CTile
  entries : List (String × CEntry) := []
  count : Nat := 0
  limit : Nat := 512

/-- JavaScript property read `object[name]` on the backing object. -/
def jsLookup (l : List (String × CEntry)) (n : String) : Option CEntry :=
  (l.find? (fun kv => kv.fst == n)).map (fun kv => kv.snd)

/-- JavaScript property write `object[name] = v`: overwrite in place if
the name exists, else append (insertion order preserved). -/
def jsInsert (l : List (String × CEntry)) (n : String) (v : CEntry) : List (String × CEntry) :=
  if l.any (fun kv => kv.fst == n) then
    l.map (fun kv => if kv.fst == n then (n, v) else kv)
  else
    l ++ [(n, v)]

/-- JavaScript `delete object[name]`. -/
def jsDelete (l : List (String × CEntry)) (n : String) : List (String × CEntry) :=
  l.filter (fun kv => !(kv.fst == n))

/-- `TileTextureCachePolicy.prototype.hit` applied to a property whose
key is `tid`: stamp the tile and all its ancestors with the current
time (the returned `object.value` is unchanged). -/
def policyHit (w : CWorld) (tid : TileId) (time : JDate) : CWorld :=
  { w with tiles := touchChain w.tiles tid time }

/-- One iteration of the eviction scan in `miss` (lines 91-98): an entry
replaces the running victim when its key's `_lastHit` is strictly before
the running `lruTime` and its zoom exceeds 2.  Entry keys always have a
`_lastHit` (every insertion goes through `hit`); an undefined `_lastHit`
would throw in JavaScript and is mapped to "not selected". -/
def victimStep (tiles : TileId → CTile) (acc : JDate × String) (kv : String × CEntry) : JDate × String :=
  match (tiles kv.snd.key).lastHit with
  | some s => if s < acc.fst ∧ kv.snd.key.length > 2 then (s, kv.fst) else acc
  | none => acc

/-- The full eviction scan: fold over `Object.keys(object)` starting
from (`lruTime`, the empty-string index). -/
def selectVictim (tiles : TileId → CTile) (t0 : JDate) (entries : List (String × CEntry)) : JDate × String :=
  entries.foldl (victimStep tiles) (t0, "")

/-- The `remove` callback from `_createTextureCache` (lines 753-776):
return the texture to the pool or destroy it (either way
`tile.texture` ends up undefined), destroy the extent vertex array,
clear the projection, and reset the tile to `READY`.  Pool bookkeeping
is not modelled (the policy is only built with the pooled
configuration). -/
def removeCb (ts : TileId → CTile) (tid : TileId) : TileId → CTile :=
  updCTile ts tid (fun t => { t with texture := none, projection := none, state := some .READY })

/-- Outcome of a `miss` call: the resulting world, the returned texture
(none when the call throws), which tile was evicted, and whether the
call threw.  `errored` marks the `element.key` dereference on the
undefined `object[index]` when the scan left `index` at the empty
string and no entry bears that name. -/
structure MissOut where
  world : CWorld
  value : Option Texture
  evicted : Option TileId
  errored : Bool

/-- `TileTextureCachePolicy.prototype.miss` (lines 73-108).  `fetch` is
the policy's `_fetchFunc`, `t0` the `lruTime` stamp and `thit` the stamp
taken inside `this.hit(property)` (two separate `new JulianDate()`
calls, so `t0 ≤ thit`).  The remove callback is always installed by
`_createTextureCache`. -/
def policyMiss (fetch : TileId → Texture) (name : String) (key : TileId)
    (t0 thit : JDate) (w : CWorld) : MissOut :=
  let value := fetch key
  let w1 : CWorld := { w with tiles := touchChain w.tiles key thit }
  if w1.count < w1.limit then
    { world := { w1 with count := w1.count + 1, entries := jsInsert w1.entries name ⟨key, value⟩ },
      value := some value, evicted := none, errored := false }
  else
    let idx := (selectVictim w1.tiles t0 w1.entries).snd
    match jsLookup w1.entries idx with
    | none =>
      { world := w1, value := none, evicted := none, errored := true }
    | some e =>
      let w2 : CWorld := { w1 with tiles := removeCb w1.tiles e.key }
      { world := { w2 with entries := jsInsert (jsDelete w2.entries idx) name ⟨key, value⟩ },
        value := some value, evicted := some e.key, errored := false }

/-- A cache operation, as dispatched by the (absent) `Cache.js` wrapper
per the spec's acquire contract: a hit touches the existing entry's
tile chain, a miss runs the insertion/eviction path. -/
inductive COp where
  | opHit (tid : TileId) (t : JDate)
  | opMiss (name : String) (key : TileId) (t0 thit : JDate)

/-- Interpret one cache operation (a throwing miss leaves the world at
the point the exception propagates). -/
def cacheStep (fetch : TileId → Texture) (w : CWorld) (op : COp) : CWorld :=
  match op with
  | .opHit tid t => policyHit w tid t
  | .opMiss name key t0 thit => (policyMiss fetch name key t0 thit w).world

/-- Residency invariant: the backing object never holds more entries
than the policy's `_count`, which never exceeds `_limit`. -/
def CacheInv (w : CWorld) : Prop :=
  w.entries.length ≤ w.count ∧ w.count ≤ w.limit

/-!  Queue-shape lemmas for the three stage drains.  -/

lemma imageStageBody_queues (cull : Nat → Bool) (w : World) (tid : Nat) :
    (imageStageBody cull w tid).imageQueue = w.imageQueue ∧
    (imageStageBody cull w tid).reprojectQueue = w.reprojectQueue ∧
    (imageStageBody cull w tid).textureQueue = w.textureQueue := by
  unfold imageStageBody
  split
  · exact ⟨rfl, rfl, rfl⟩
  · dsimp only
    split
    · exact ⟨rfl, rfl, rfl⟩
    · exact ⟨rfl, rfl, rfl⟩

lemma reprojectStageBody_queues (cull : Nat → Bool) (w : World) (tid : Nat) :
    (reprojectStageBody cull w tid).imageQueue = w.imageQueue ∧
    (reprojectStageBody cull w tid).reprojectQueue = w.reprojectQueue ∧
    (reprojectStageBody cull w tid).textureQueue = w.textureQueue := by
  unfold reprojectStageBody
  split
  · exact ⟨rfl, rfl, rfl⟩
  · exact ⟨rfl, rfl, rfl⟩

lemma textureStageBody_queues (cull : Nat → Bool) (w : World) (tid : Nat) :
    (textureStageBody cull w tid).imageQueue = w.imageQueue ∧
    (textureStageBody cull w tid).reprojectQueue = w.reprojectQueue ∧
    (textureStageBody cull w tid).textureQueue = w.textureQueue := by
  unfold textureStageBody
  split
  · exact ⟨rfl, rfl, rfl⟩
  · exact ⟨rfl, rfl, rfl⟩

lemma runImageDrain_queues (cull : Nat → Bool) :
    ∀ (k : Nat) (w : World),
      (runImageDrain cull k w).imageQueue = w.imageQueue.drop k ∧
      (runImageDrain cull k w).reprojectQueue = w.reprojectQueue ∧
      (runImageDrain cull k w).textureQueue = w.textureQueue := by
  intro k
  induction k with
  | zero => intro w; exact ⟨rfl, rfl, rfl⟩
  | succ k ih =>
    intro w
    unfold runImageDrain
    cases hq : w.imageQueue with
    | nil => simp [hq]
    | cons tid rest =>
      have hb := imageStageBody_queues cull { w with imageQueue := rest } tid
      have hr := ih (imageStageBody cull { w with imageQueue := rest } tid)
      refine ⟨?_, ?_, ?_⟩
      · rw [hr.1, hb.1]; simp [hq]
      · rw [hr.2.1, hb.2.1]
      · rw [hr.2.2, hb.2.2]

lemma runReprojectDrain_queues (cull : Nat → Bool) :
    ∀ (k : Nat) (w : World),
      (runReprojectDrain cull k w).reprojectQueue = w.reprojectQueue.drop k ∧
      (runReprojectDrain cull k w).imageQueue = w.imageQueue ∧
      (runReprojectDrain cull k w).textureQueue = w.textureQueue := by
  intro k
  induction k with
  | zero => intro w; exact ⟨rfl, rfl, rfl⟩
  | succ k ih =>
    intro w
    unfold runReprojectDrain
    cases hq : w.reprojectQueue with
    | nil => simp [hq]
    | cons tid rest =>
      have hb := reprojectStageBody_queues cull { w with reprojectQueue := rest } tid
      have hr := ih (reprojectStageBody cull { w with reprojectQueue := rest } tid)
      refine ⟨?_, ?_, ?_⟩
      · rw [hr.1, hb.2.1]; simp [hq]
      · rw [hr.2.1, hb.1]
      · rw [hr.2.2, hb.2.2]

lemma runTextureDrain_queues (cull : Nat → Bool) :
    ∀ (k : Nat) (w : World),
      (runTextureDrain cull k w).textureQueue = w.textureQueue.drop k ∧
      (runTextureDrain cull k w).imageQueue = w.imageQueue ∧
      (runTextureDrain cull k w).reprojectQueue = w.reprojectQueue := by
  intro k
  induction k with
  | zero => intro w; exact ⟨rfl, rfl, rfl⟩
  | succ k ih =>
    intro w
    unfold runTextureDrain
    cases hq : w.textureQueue with
    | nil => simp [hq]
    | cons tid rest =>
      have hb := textureStageBody_queues cull { w with textureQueue := rest } tid
      have hr := ih (textureStageBody cull { w with textureQueue := rest } tid)
      refine ⟨?_, ?_, ?_⟩
      · rw [hr.1, hb.2.2]; simp [hq]
      · rw [hr.2.1, hb.1]
      · rw [hr.2.2, hb.2.1]

lemma throttleImages_queues (cull : Nat → Bool) (w : World) :
    (throttleImages cull w).imageQueue
        = w.imageQueue.drop (min w.imageQueue.length w.imageThrottleLimit) ∧
    (throttleImages cull w).reprojectQueue = w.reprojectQueue ∧
    (throttleImages cull w).textureQueue = w.textureQueue :=
  runImageDrain_queues cull _ w

lemma throttleReprojection_queues (cull : Nat → Bool) (w : World) :
    (throttleReprojection cull w).reprojectQueue
        = w.reprojectQueue.drop (min w.reprojectQueue.length w.reprojectThrottleLimit) ∧
    (throttleReprojection cull w).imageQueue = w.imageQueue ∧
    (throttleReprojection cull w).textureQueue = w.textureQueue :=
  runReprojectDrain_queues cull _ w

lemma throttleTextures_queues (cull : Nat → Bool) (w : World) :
    (throttleTextures cull w).textureQueue
        = w.textureQueue.drop (min w.textureQueue.length w.textureThrottleLimit) ∧
    (throttleTextures cull w).imageQueue = w.imageQueue ∧
    (throttleTextures cull w).reprojectQueue = w.reprojectQueue :=
  runTextureDrain_queues cull _ w

/-- C7: in one frame, every stage drain dequeues at most its configured
throttle limit of queue items: the image drain removes at most
`_imageThrottleLimit` tiles from the image queue, the reprojection drain
at most `_reprojectThrottleLimit`, the texture drain at most
`_textureThrottleLimit`, whatever the queue lengths. -/
theorem drains_respect_throttle_limits (cull : Nat → Bool) (w : World) :
    w.imageQueue.length - (throttleImages cull w).imageQueue.length
        ≤ w.imageThrottleLimit ∧
    w.reprojectQueue.length - (throttleReprojection cull w).reprojectQueue.length
        ≤ w.reprojectThrottleLimit ∧
    w.textureQueue.length - (throttleTextures cull w).textureQueue.length
        ≤ w.textureThrottleLimit := by
  refine ⟨?_, ?_, ?_⟩
  · rw [(throttleImages_queues cull w).1, List.length_drop]; omega
  · rw [(throttleReprojection_queues cull w).1, List.length_drop]; omega
  · rw [(throttleTextures_queues cull w).1, List.length_drop]; omega

/-- `_processTile` either leaves all three stage queues unchanged, or —
only when the tile is in none of them — appends it to exactly one. -/
lemma processTile_queue_shape (now : JDate) (w : World) (tid : Nat) :
    ((processTile now w tid).imageQueue = w.imageQueue ∧
     (processTile now w tid).reprojectQueue = w.reprojectQueue ∧
     (processTile now w tid).textureQueue = w.textureQueue) ∨
    (inAnyQueue w tid = false ∧
      (((processTile now w tid).imageQueue = w.imageQueue ++ [tid] ∧
        (processTile now w tid).reprojectQueue = w.reprojectQueue ∧
        (processTile now w tid).textureQueue = w.textureQueue) ∨
       ((processTile now w tid).imageQueue = w.imageQueue ∧
        (processTile now w tid).reprojectQueue = w.reprojectQueue ++ [tid] ∧
        (processTile now w tid).textureQueue = w.textureQueue) ∨
       ((processTile now w tid).imageQueue = w.imageQueue ∧
        (processTile now w tid).reprojectQueue = w.reprojectQueue ∧
        (processTile now w tid).textureQueue = w.textureQueue ++ [tid]))) := by
  by_cases hq : inAnyQueue w tid
  · left
    simp [processTile, hq]
  · have hq' : inAnyQueue w tid = false := by simpa using hq
    unfold processTile
    rw [if_neg (by simp [hq'])]
    dsimp only
    split
    · right; exact ⟨hq', Or.inl ⟨rfl, rfl, rfl⟩⟩
    · split
      · right; exact ⟨hq', Or.inr (Or.inl ⟨rfl, rfl, rfl⟩)⟩
      · split
        · right; exact ⟨hq', Or.inr (Or.inr ⟨rfl, rfl, rfl⟩)⟩
        · split
          · right
            refine ⟨hq', Or.inl ?_⟩
            dsimp only
            split <;> exact ⟨rfl, rfl, rfl⟩
          · split
            · left; exact ⟨rfl, rfl, rfl⟩
            · left; exact ⟨rfl, rfl, rfl⟩

lemma inAnyQueue_false_elim {w : World} {tid : Nat} (h : inAnyQueue w tid = false) :
    tid ∉ w.imageQueue ∧ tid ∉ w.reprojectQueue ∧ tid ∉ w.textureQueue := by
  simp [inAnyQueue] at h
  exact ⟨h.1.1, h.1.2, h.2⟩

/-- C4: a tile never sits in more than one stage queue.  `_processTile`
is a no-op (no enqueue, no state change) on a tile already contained in
any stage queue, it preserves pairwise disjointness of the queues, and
so do the three per-frame drains, which only remove items. -/
theorem processTile_idempotent_single_queue (now : JDate) (cull : Nat → Bool)
    (w : World) (tid : Nat) :
    (inAnyQueue w tid = true → processTile now w tid = w) ∧
    (QueueInv w → QueueInv (processTile now w tid)) ∧
    (QueueInv w →
      QueueInv (throttleImages cull w) ∧
      QueueInv (throttleReprojection cull w) ∧
      QueueInv (throttleTextures cull w)) := by
  refine ⟨?_, ?_, ?_⟩
  · intro h
    simp [processTile, h]
  · intro hinv
    obtain ⟨h12, h13, h23⟩ := hinv
    rcases processTile_queue_shape now w tid with ⟨e1, e2, e3⟩ | ⟨hq, hcase⟩
    · exact ⟨by rw [e1, e2]; exact h12, by rw [e1, e3]; exact h13, by rw [e2, e3]; exact h23⟩
    · obtain ⟨hn1, hn2, hn3⟩ := inAnyQueue_false_elim hq
      rcases hcase with ⟨e1, e2, e3⟩ | ⟨e1, e2, e3⟩ | ⟨e1, e2, e3⟩
      · refine ⟨?_, ?_, ?_⟩
        · rw [e1, e2]; exact List.disjoint_append_left.mpr ⟨h12, List.singleton_disjoint.mpr hn2⟩
        · rw [e1, e3]; exact List.disjoint_append_left.mpr ⟨h13, List.singleton_disjoint.mpr hn3⟩
        · rw [e2, e3]; exact h23
      · refine ⟨?_, ?_, ?_⟩
        · rw [e1, e2]; exact List.disjoint_append_right.mpr ⟨h12, List.disjoint_singleton.mpr hn1⟩
        · rw [e1, e3]; exact h13
        · rw [e2, e3]; exact List.disjoint_append_left.mpr ⟨h23, List.singleton_disjoint.mpr hn3⟩
      · refine ⟨?_, ?_, ?_⟩
        · rw [e1, e2]; exact h12
        · rw [e1, e3]; exact List.disjoint_append_right.mpr ⟨h13, List.disjoint_singleton.mpr hn1⟩
        · rw [e2, e3]; exact List.disjoint_append_right.mpr ⟨h23, List.disjoint_singleton.mpr hn2⟩
  · intro hinv
    obtain ⟨h12, h13, h23⟩ := hinv
    obtain ⟨e1, e2, e3⟩ := throttleImages_queues cull w
    obtain ⟨f1, f2, f3⟩ := throttleReprojection_queues cull w
    obtain ⟨g1, g2, g3⟩ := throttleTextures_queues cull w
    refine ⟨⟨?_, ?_, ?_⟩, ⟨?_, ?_, ?_⟩, ⟨?_, ?_, ?_⟩⟩
    · rw [e1, e2]; exact List.disjoint_of_subset_left (List.drop_subset _ _) h12
    · rw [e1, e3]; exact List.disjoint_of_subset_left (List.drop_subset _ _) h13
    · rw [e2, e3]; exact h23
    · rw [f1, f2]; exact List.disjoint_of_subset_right (List.drop_subset _ _) h12
    · rw [f2, f3]; exact h13
    · rw [f1, f3]; exact List.disjoint_of_subset_left (List.drop_subset _ _) h23
    · rw [g2, g3]; exact h12
    · rw [g1, g2]; exact List.disjoint_of_subset_right (List.drop_subset _ _) h13
    · rw [g1, g3]; exact List.disjoint_of_subset_right (List.drop_subset _ _) h23

/-- Concrete world for witnesses: three distinct tiles, one per stage
queue, default constructor tunables. -/
def witnessWorld : World :=
  { mkWorld (fun _ => { zoom := 3, x := 0, y := 0 }) 0 with
      imageQueue := [0], reprojectQueue := [1], textureQueue := [2] }

/-- Witness for C4 at a concrete world: the queues are pairwise
disjoint, tile 0 is queued, and processing it changes nothing. -/
theorem processTile_idempotent_single_queue_witness :
    QueueInv witnessWorld ∧
    QueueInv (processTile 0 witnessWorld 0) ∧
    processTile 0 witnessWorld 0 = witnessWorld := by
  have h := processTile_idempotent_single_queue 0 (fun _ => false) witnessWorld 0
  have hinv : QueueInv witnessWorld := by
    refine ⟨?_, ?_, ?_⟩ <;> simp [witnessWorld, List.Disjoint, mkWorld]
  exact ⟨hinv, h.2.1 hinv, h.1 (by decide)⟩

/-- C8: within one `update` call the drains run in the fixed order
image-fetch, then reprojection, then texture-upload, with the
tree-traversal `_processTile` calls strictly afterwards; consequently a
tile sitting in one stage queue at the start of the frame cannot also be
dequeued by the following stage in the same frame — it is not in that
stage's queue at any point during that stage's drain, because drains
never enqueue and the queues are disjoint. -/
theorem stage_order_one_stage_per_frame (cull : Nat → Bool) (trav : List Nat)
    (now : JDate) (w : World) :
    updateFrame cull trav now w
      = trav.foldl (processTile now)
          (throttleTextures cull (throttleReprojection cull (throttleImages cull w))) ∧
    (QueueInv w → ∀ tid ∈ w.imageQueue,
      tid ∉ (throttleImages cull w).reprojectQueue) ∧
    (QueueInv w → ∀ tid ∈ w.reprojectQueue,
      tid ∉ (throttleReprojection cull (throttleImages cull w)).textureQueue) := by
  refine ⟨rfl, ?_, ?_⟩
  · intro hinv tid hm
    rw [(throttleImages_queues cull w).2.1]
    exact hinv.1 hm
  · intro hinv tid hm
    rw [(throttleReprojection_queues cull (throttleImages cull w)).2.2,
        (throttleImages_queues cull w).2.2]
    exact hinv.2.2 hm

/-- Witness for C8 at the concrete `witnessWorld`: tile 0 is in the
image queue and is not dequeued by the reprojection drain of the same
frame, tile 1 is in the reprojection queue and not dequeued by the
texture drain. -/
theorem stage_order_one_stage_per_frame_witness :
    (0 ∈ witnessWorld.imageQueue ∧
      0 ∉ (throttleImages (fun _ => false) witnessWorld).reprojectQueue) ∧
    (1 ∈ witnessWorld.reprojectQueue ∧
      1 ∉ (throttleReprojection (fun _ => false)
            (throttleImages (fun _ => false) witnessWorld)).textureQueue) := by
  have h := stage_order_one_stage_per_frame (fun _ => false) [] 0 witnessWorld
  have hinv : QueueInv witnessWorld := by
    refine ⟨?_, ?_, ?_⟩ <;> simp [witnessWorld, List.Disjoint, mkWorld]
  constructor
  · exact ⟨by decide, h.2.1 hinv 0 (by decide)⟩
  · exact ⟨by decide, h.2.2 hinv 1 (by decide)⟩

/-- The failing input for the retry-policy claim: a tile whose image
fetch failed once (per-tile counter 1, below the constructor ceiling
`perTileMaxFailCount = 3`), a global failure counter of 1 (below
`maxTileFailCount = 30`), last failure at time 0, current time 10 (the
30-second cool-down has not elapsed), and the tile in no queue. -/
def failedTile : TileData :=
  { zoom := 3, x := 1, y := 1, state := some .IMAGE_FAILED,
    image := some .handle, failCount := 1 }

/-- The `CentralBody` state for the retry failing input. -/
def failedWorld : World :=
  { mkWorld (fun _ => failedTile) 0 with tileFailCount := 1, lastFailedTime := some 0 }

/-- C1: the claimed retry policy does not hold on the code.  At the
failing input — per-tile failure count 1 < `perTileMaxFailCount` (3),
global counter 1 ≤ `maxTileFailCount` (30), cool-down (30 s) not
elapsed — the claim says `_processTile` re-enqueues the tile into the
image queue with state `IMAGE_LOADING`; the code instead leaves the
world untouched, because `requestFailed` and `maxFailed` compare
against the never-assigned `this._maxTileFailCount` (undefined), so
`retry` reduces to `maxTimePassed` alone.  (The cool-down part of the
claim does hold: at time 40 the tile is re-enqueued and both counters
reset, as the last conjuncts show.) -/
theorem processTile_does_not_retry_below_ceiling :
    (failedWorld.tiles 7).failCount < failedWorld.perTileMaxFailCount ∧
    failedWorld.tileFailCount ≤ failedWorld.maxTileFailCount ∧
    ¬ ((10 : Int) - (0 : Int) ≥ (failedWorld.failedTileRetryTime : Int)) ∧
    (processTile 10 failedWorld 7).tiles 7 = failedTile ∧
    (processTile 10 failedWorld 7).imageQueue = [] ∧
    (processTile 10 failedWorld 7).reprojectQueue = [] ∧
    (processTile 10 failedWorld 7).textureQueue = [] ∧
    (processTile 10 failedWorld 7).tileFailCount = 1 ∧
    ((processTile 40 failedWorld 7).tiles 7).state = some .IMAGE_LOADING ∧
    ((processTile 40 failedWorld 7).tiles 7).failCount = 0 ∧
    (processTile 40 failedWorld 7).imageQueue = [7] ∧
    (processTile 40 failedWorld 7).tileFailCount = 0 := by
  decide

lemma processTile_ready (now : JDate) (w : World) (tid : Nat)
    (hq : inAnyQueue w tid = false)
    (hst : (w.tiles tid).state = none ∨ (w.tiles tid).state = some .READY) :
    processTile now w tid
      = { w with imageQueue := w.imageQueue ++ [tid],
                 tiles := updTile w.tiles tid (fun t => { t with state := some .IMAGE_LOADING }) } := by
  unfold processTile
  rw [if_neg (by simp [hq])]
  dsimp only
  rw [if_pos hst]

lemma processTile_imageLoaded (now : JDate) (w : World) (tid : Nat)
    (hq : inAnyQueue w tid = false)
    (hst : (w.tiles tid).state = some .IMAGE_LOADED) :
    processTile now w tid
      = { w with reprojectQueue := w.reprojectQueue ++ [tid],
                 tiles := updTile w.tiles tid (fun t => { t with state := some .REPROJECTING }) } := by
  unfold processTile
  rw [if_neg (by simp [hq])]
  dsimp only
  rw [if_neg (by simp [hst]), if_pos hst]

lemma processTile_reprojected (now : JDate) (w : World) (tid : Nat)
    (hq : inAnyQueue w tid = false)
    (hst : (w.tiles tid).state = some .REPROJECTED) :
    processTile now w tid
      = { w with textureQueue := w.textureQueue ++ [tid],
                 tiles := updTile w.tiles tid (fun t => { t with state := some .TEXTURE_LOADING }) } := by
  unfold processTile
  rw [if_neg (by simp [hq])]
  dsimp only
  rw [if_neg (by simp [hst]), if_neg (by simp [hst]), if_pos hst]

lemma imageStageBody_fetch (cull : Nat → Bool) (w : World) (tid : Nat)
    (hc : cull tid = false)
    (hbase : ¬ (w.providerZoomMin ≠ 0 ∧ (w.tiles tid).zoom = 0 ∧ (w.tiles tid).x = 0 ∧ (w.tiles tid).y = 0)) :
    imageStageBody cull w tid
      = { w with tiles := updTile w.tiles tid (fun t =>
            { t with image := some .handle,
                     projection := if t.projection = none then some .provider else t.projection }) } := by
  unfold imageStageBody
  rw [if_neg (by simp [hc])]
  dsimp only
  rw [if_neg hbase]

lemma reprojectStageBody_go (cull : Nat → Bool) (w : World) (tid : Nat)
    (hc : cull tid = false) :
    reprojectStageBody cull w tid
      = { w with tiles := updTile w.tiles tid (fun t =>
            { t with image := t.image.map Image.reprojected,
                     state := some .REPROJECTED, projection := some .wgs84 }) } := by
  unfold reprojectStageBody
  rw [if_neg (by simp [hc])]

lemma textureStageBody_go (cull : Nat → Bool) (w : World) (tid : Nat)
    (hc : cull tid = false) (him : ¬ (w.tiles tid).image = none) :
    textureStageBody cull w tid
      = { w with tiles := updTile w.tiles tid (fun t =>
            { t with texture := some tid, state := some .TEXTURE_LOADED, image := none }) } := by
  unfold textureStageBody
  rw [if_neg (by simp [hc, him])]

lemma throttleImages_singleton (cull : Nat → Bool) (w : World) (tid : Nat)
    (hq : w.imageQueue = [tid]) (hlim : 1 ≤ w.imageThrottleLimit) :
    throttleImages cull w = imageStageBody cull { w with imageQueue := [] } tid := by
  have h1 : min w.imageQueue.length w.imageThrottleLimit = 1 := by
    rw [hq]; simpa using Nat.min_eq_left hlim
  unfold throttleImages
  rw [h1]
  unfold runImageDrain
  rw [hq]
  rfl

lemma throttleReprojection_singleton (cull : Nat → Bool) (w : World) (tid : Nat)
    (hq : w.reprojectQueue = [tid]) (hlim : 1 ≤ w.reprojectThrottleLimit) :
    throttleReprojection cull w = reprojectStageBody cull { w with reprojectQueue := [] } tid := by
  have h1 : min w.reprojectQueue.length w.reprojectThrottleLimit = 1 := by
    rw [hq]; simpa using Nat.min_eq_left hlim
  unfold throttleReprojection
  rw [h1]
  unfold runReprojectDrain
  rw [hq]
  rfl

lemma throttleTextures_singleton (cull : Nat → Bool) (w : World) (tid : Nat)
    (hq : w.textureQueue = [tid]) (hlim : 1 ≤ w.textureThrottleLimit) :
    throttleTextures cull w = textureStageBody cull { w with textureQueue := [] } tid := by
  have h1 : min w.textureQueue.length w.textureThrottleLimit = 1 := by
    rw [hq]; simpa using Nat.min_eq_left hlim
  unfold throttleTextures
  rw [h1]
  unfold runTextureDrain
  rw [hq]
  rfl


/-- C5: a tile that passes through the fetch, reprojection and upload
stages with no culling at any drain, no stage failure and a successful
image load ends in `TEXTURE_LOADED` with a texture handle set and its
CPU-side image payload cleared, so after the upload stage it never holds
both an image payload and a completed texture. -/
theorem pipeline_round_trip (ts : Nat → TileData) (zmin : Nat) (tid : Nat)
    (n1 n2 n3 : JDate) (c1 c2 c3 : Nat → Bool)
    (hst : (ts tid).state = some .READY)
    (hc1 : c1 tid = false) (hc2 : c2 tid = false) (hc3 : c3 tid = false)
    (hbase : ¬ (zmin ≠ 0 ∧ (ts tid).zoom = 0 ∧ (ts tid).x = 0 ∧ (ts tid).y = 0)) :
    ((throttleTextures c3 (processTile n3 (throttleReprojection c2 (processTile n2
        (onload (throttleImages c1 (processTile n1 (mkWorld ts zmin) tid)) tid) tid)) tid)).tiles tid).state
        = some .TEXTURE_LOADED ∧
    ((throttleTextures c3 (processTile n3 (throttleReprojection c2 (processTile n2
        (onload (throttleImages c1 (processTile n1 (mkWorld ts zmin) tid)) tid) tid)) tid)).tiles tid).texture
        = some tid ∧
    ((throttleTextures c3 (processTile n3 (throttleReprojection c2 (processTile n2
        (onload (throttleImages c1 (processTile n1 (mkWorld ts zmin) tid)) tid) tid)) tid)).tiles tid).image
        = none := by
  have E1 : processTile n1 (mkWorld ts zmin) tid
      = { mkWorld (updTile ts tid (fun t => { t with state := some .IMAGE_LOADING })) zmin with
            imageQueue := [tid] } := by
    rw [processTile_ready n1 (mkWorld ts zmin) tid rfl (Or.inr hst)]
    exact rfl
  rw [E1]
  have E2 : throttleImages c1
        ({ mkWorld (updTile ts tid (fun t => { t with state := some .IMAGE_LOADING })) zmin with
             imageQueue := [tid] })
      = mkWorld (updTile (updTile ts tid (fun t => { t with state := some .IMAGE_LOADING })) tid
          (fun t => { t with image := some .handle,
                             projection := if t.projection = none then some .provider else t.projection }))
          zmin := by
    rw [throttleImages_singleton c1
        ({ mkWorld (updTile ts tid (fun t => { t with state := some .IMAGE_LOADING })) zmin with
             imageQueue := [tid] }) tid rfl (by norm_num [mkWorld])]
    show imageStageBody c1
        (mkWorld (updTile ts tid (fun t => { t with state := some .IMAGE_LOADING })) zmin) tid = _
    rw [imageStageBody_fetch c1
        (mkWorld (updTile ts tid (fun t => { t with state := some .IMAGE_LOADING })) zmin) tid hc1
        (by simpa [mkWorld, updTile] using hbase)]
    exact rfl
  rw [E2]
  have E3 : onload (mkWorld (updTile (updTile ts tid (fun t => { t with state := some .IMAGE_LOADING })) tid
          (fun t => { t with image := some .handle,
                             projection := if t.projection = none then some .provider else t.projection })) zmin) tid = mkWorld (updTile (updTile (updTile ts tid (fun t => { t with state := some .IMAGE_LOADING })) tid
          (fun t => { t with image := some .handle,
                             projection := if t.projection = none then some .provider else t.projection })) tid
          (fun t => { t with state := some .IMAGE_LOADED })) zmin := rfl
  rw [E3]
  have E4 : processTile n2 (mkWorld (updTile (updTile (updTile ts tid (fun t => { t with state := some .IMAGE_LOADING })) tid
          (fun t => { t with image := some .handle,
                             projection := if t.projection = none then some .provider else t.projection })) tid
          (fun t => { t with state := some .IMAGE_LOADED })) zmin) tid
      = { mkWorld (updTile (updTile (updTile (updTile ts tid (fun t => { t with state := some .IMAGE_LOADING })) tid
          (fun t => { t with image := some .handle,
                             projection := if t.projection = none then some .provider else t.projection })) tid
          (fun t => { t with state := some .IMAGE_LOADED })) tid
          (fun t => { t with state := some .REPROJECTING })) zmin with reprojectQueue := [tid] } := by
    rw [processTile_imageLoaded n2 (mkWorld (updTile (updTile (updTile ts tid (fun t => { t with state := some .IMAGE_LOADING })) tid
          (fun t => { t with image := some .handle,
                             projection := if t.projection = none then some .provider else t.projection })) tid
          (fun t => { t with state := some .IMAGE_LOADED })) zmin) tid rfl (by simp [mkWorld, updTile])]
    exact rfl
  rw [E4]
  have E5 : throttleReprojection c2 ({ mkWorld (updTile (updTile (updTile (updTile ts tid (fun t => { t with state := some .IMAGE_LOADING })) tid
          (fun t => { t with image := some .handle,
                             projection := if t.projection = none then some .provider else t.projection })) tid
          (fun t => { t with state := some .IMAGE_LOADED })) tid
          (fun t => { t with state := some .REPROJECTING })) zmin with reprojectQueue := [tid] })
      = mkWorld (updTile (updTile (updTile (updTile (updTile ts tid (fun t => { t with state := some .IMAGE_LOADING })) tid
          (fun t => { t with image := some .handle,
                             projection := if t.projection = none then some .provider else t.projection })) tid
          (fun t => { t with state := some .IMAGE_LOADED })) tid
          (fun t => { t with state := some .REPROJECTING })) tid
          (fun t => { t with image := t.image.map Image.reprojected,
                             state := some .REPROJECTED, projection := some .wgs84 })) zmin := by
    rw [throttleReprojection_singleton c2
        ({ mkWorld (updTile (updTile (updTile (updTile ts tid (fun t => { t with state := some .IMAGE_LOADING })) tid
          (fun t => { t with image := some .handle,
                             projection := if t.projection = none then some .provider else t.projection })) tid
          (fun t => { t with state := some .IMAGE_LOADED })) tid
          (fun t => { t with state := some .REPROJECTING })) zmin with reprojectQueue := [tid] }) tid rfl (by norm_num [mkWorld])]
    show reprojectStageBody c2 (mkWorld (updTile (updTile (updTile (updTile ts tid (fun t => { t with state := some .IMAGE_LOADING })) tid
          (fun t => { t with image := some .handle,
                             projection := if t.projection = none then some .provider else t.projection })) tid
          (fun t => { t with state := some .IMAGE_LOADED })) tid
          (fun t => { t with state := some .REPROJECTING })) zmin) tid = _
    rw [reprojectStageBody_go c2 (mkWorld (updTile (updTile (updTile (updTile ts tid (fun t => { t with state := some .IMAGE_LOADING })) tid
          (fun t => { t with image := some .handle,
                             projection := if t.projection = none then some .provider else t.projection })) tid
          (fun t => { t with state := some .IMAGE_LOADED })) tid
          (fun t => { t with state := some .REPROJECTING })) zmin) tid hc2]
    exact rfl
  rw [E5]
  have E6 : processTile n3 (mkWorld (updTile (updTile (updTile (updTile (updTile ts tid (fun t => { t with state := some .IMAGE_LOADING })) tid
          (fun t => { t with image := some .handle,
                             projection := if t.projection = none then some .provider else t.projection })) tid
          (fun t => { t with state := some .IMAGE_LOADED })) tid
          (fun t => { t with state := some .REPROJECTING })) tid
          (fun t => { t with image := t.image.map Image.reprojected,
                             state := some .REPROJECTED, projection := some .wgs84 })) zmin) tid
      = { mkWorld (updTile (updTile (updTile (updTile (updTile (updTile ts tid (fun t => { t with state := some .IMAGE_LOADING })) tid
          (fun t => { t with image := some .handle,
                             projection := if t.projection = none then some .provider else t.projection })) tid
          (fun t => { t with state := some .IMAGE_LOADED })) tid
          (fun t => { t with state := some .REPROJECTING })) tid
          (fun t => { t with image := t.image.map Image.reprojected,
                             state := some .REPROJECTED, projection := some .wgs84 })) tid
          (fun t => { t with state := some .TEXTURE_LOADING })) zmin with textureQueue := [tid] } := by
    rw [processTile_reprojected n3 (mkWorld (updTile (updTile (updTile (updTile (updTile ts tid (fun t => { t with state := some .IMAGE_LOADING })) tid
          (fun t => { t with image := some .handle,
                             projection := if t.projection = none then some .provider else t.projection })) tid
          (fun t => { t with state := some .IMAGE_LOADED })) tid
          (fun t => { t with state := some .REPROJECTING })) tid
          (fun t => { t with image := t.image.map Image.reprojected,
                             state := some .REPROJECTED, projection := some .wgs84 })) zmin) tid rfl (by simp [mkWorld, updTile])]
    exact rfl
  rw [E6]
  have E7 : throttleTextures c3 ({ mkWorld (updTile (updTile (updTile (updTile (updTile (updTile ts tid (fun t => { t with state := some .IMAGE_LOADING })) tid
          (fun t => { t with image := some .handle,
                             projection := if t.projection = none then some .provider else t.projection })) tid
          (fun t => { t with state := some .IMAGE_LOADED })) tid
          (fun t => { t with state := some .REPROJECTING })) tid
          (fun t => { t with image := t.image.map Image.reprojected,
                             state := some .REPROJECTED, projection := some .wgs84 })) tid
          (fun t => { t with state := some .TEXTURE_LOADING })) zmin with textureQueue := [tid] })
      = mkWorld (updTile (updTile (updTile (updTile (updTile (updTile (updTile ts tid (fun t => { t with state := some .IMAGE_LOADING })) tid
          (fun t => { t with image := some .handle,
                             projection := if t.projection = none then some .provider else t.projection })) tid
          (fun t => { t with state := some .IMAGE_LOADED })) tid
          (fun t => { t with state := some .REPROJECTING })) tid
          (fun t => { t with image := t.image.map Image.reprojected,
                             state := some .REPROJECTED, projection := some .wgs84 })) tid
          (fun t => { t with state := some .TEXTURE_LOADING })) tid
          (fun t => { t with texture := some tid, state := some .TEXTURE_LOADED, image := none })) zmin := by
    rw [throttleTextures_singleton c3
        ({ mkWorld (updTile (updTile (updTile (updTile (updTile (updTile ts tid (fun t => { t with state := some .IMAGE_LOADING })) tid
          (fun t => { t with image := some .handle,
                             projection := if t.projection = none then some .provider else t.projection })) tid
          (fun t => { t with state := some .IMAGE_LOADED })) tid
          (fun t => { t with state := some .REPROJECTING })) tid
          (fun t => { t with image := t.image.map Image.reprojected,
                             state := some .REPROJECTED, projection := some .wgs84 })) tid
          (fun t => { t with state := some .TEXTURE_LOADING })) zmin with textureQueue := [tid] }) tid rfl (by norm_num [mkWorld])]
    show textureStageBody c3 (mkWorld (updTile (updTile (updTile (updTile (updTile (updTile ts tid (fun t => { t with state := some .IMAGE_LOADING })) tid
          (fun t => { t with image := some .handle,
                             projection := if t.projection = none then some .provider else t.projection })) tid
          (fun t => { t with state := some .IMAGE_LOADED })) tid
          (fun t => { t with state := some .REPROJECTING })) tid
          (fun t => { t with image := t.image.map Image.reprojected,
                             state := some .REPROJECTED, projection := some .wgs84 })) tid
          (fun t => { t with state := some .TEXTURE_LOADING })) zmin) tid = _
    rw [textureStageBody_go c3 (mkWorld (updTile (updTile (updTile (updTile (updTile (updTile ts tid (fun t => { t with state := some .IMAGE_LOADING })) tid
          (fun t => { t with image := some .handle,
                             projection := if t.projection = none then some .provider else t.projection })) tid
          (fun t => { t with state := some .IMAGE_LOADED })) tid
          (fun t => { t with state := some .REPROJECTING })) tid
          (fun t => { t with image := t.image.map Image.reprojected,
                             state := some .REPROJECTED, projection := some .wgs84 })) tid
          (fun t => { t with state := some .TEXTURE_LOADING })) zmin) tid hc3 (by simp [mkWorld, updTile])]
    exact rfl
  rw [E7]
  refine ⟨?_, ?_, ?_⟩ <;> simp [mkWorld, updTile]

lemma reprojectStageBody_culled (cull : Nat → Bool) (w : World) (tid : Nat)
    (hc : cull tid = true) :
    reprojectStageBody cull w tid
      = { w with tiles := updTile w.tiles tid (fun t =>
            { t with image := none, state := some .READY }) } := by
  unfold reprojectStageBody
  rw [if_pos hc]

/-- C6: a tile culled at the moment it is dequeued is reset rather than
advanced: the fetch drain sets it back to `READY` without issuing a
request (image and texture untouched), the reprojection and upload
drains clear the image payload and set `READY` (texture untouched); and
a tile culled while `IMAGE_LOADING` (request issued, then culled before
the next frame) ends in `READY` with image and texture unset once its
in-flight result is discarded at the reprojection drain. -/
theorem culling_abort_resets_tiles (cull : Nat → Bool) (w : World)
    (ts : Nat → TileData) (zmin tid : Nat) (n1 n2 : JDate) (c1 c2 : Nat → Bool)
    (hcull : cull tid = true)
    (hst : (ts tid).state = some .READY)
    (hc1 : c1 tid = false) (hc2 : c2 tid = true)
    (hbase : ¬ (zmin ≠ 0 ∧ (ts tid).zoom = 0 ∧ (ts tid).x = 0 ∧ (ts tid).y = 0))
    (htex : (ts tid).texture = none) :
    (((imageStageBody cull w tid).tiles tid).state = some .READY ∧
     ((imageStageBody cull w tid).tiles tid).image = (w.tiles tid).image ∧
     ((imageStageBody cull w tid).tiles tid).texture = (w.tiles tid).texture) ∧
    (((reprojectStageBody cull w tid).tiles tid).state = some .READY ∧
     ((reprojectStageBody cull w tid).tiles tid).image = none ∧
     ((reprojectStageBody cull w tid).tiles tid).texture = (w.tiles tid).texture) ∧
    (((textureStageBody cull w tid).tiles tid).state = some .READY ∧
     ((textureStageBody cull w tid).tiles tid).image = none ∧
     ((textureStageBody cull w tid).tiles tid).texture = (w.tiles tid).texture) ∧
    (((throttleReprojection c2 (processTile n2
        (onload (throttleImages c1 (processTile n1 (mkWorld ts zmin) tid)) tid) tid)).tiles tid).state
        = some .READY ∧
     ((throttleReprojection c2 (processTile n2
        (onload (throttleImages c1 (processTile n1 (mkWorld ts zmin) tid)) tid) tid)).tiles tid).image
        = none ∧
     ((throttleReprojection c2 (processTile n2
        (onload (throttleImages c1 (processTile n1 (mkWorld ts zmin) tid)) tid) tid)).tiles tid).texture
        = none) := by
  refine ⟨?_, ?_, ?_, ?_⟩
  · refine ⟨?_, ?_, ?_⟩ <;> simp [imageStageBody, hcull, updTile]
  · refine ⟨?_, ?_, ?_⟩ <;> simp [reprojectStageBody, hcull, updTile]
  · refine ⟨?_, ?_, ?_⟩ <;> simp [textureStageBody, hcull, updTile]
  · have E1 : processTile n1 (mkWorld ts zmin) tid
        = { mkWorld (updTile ts tid (fun t => { t with state := some .IMAGE_LOADING })) zmin with imageQueue := [tid] } := by
      rw [processTile_ready n1 (mkWorld ts zmin) tid rfl (Or.inr hst)]
      exact rfl
    rw [E1]
    have E2 : throttleImages c1 ({ mkWorld (updTile ts tid (fun t => { t with state := some .IMAGE_LOADING })) zmin with imageQueue := [tid] })
        = mkWorld (updTile (updTile ts tid (fun t => { t with state := some .IMAGE_LOADING })) tid
          (fun t => { t with image := some .handle,
                             projection := if t.projection = none then some .provider else t.projection })) zmin := by
      rw [throttleImages_singleton c1
          ({ mkWorld (updTile ts tid (fun t => { t with state := some .IMAGE_LOADING })) zmin with imageQueue := [tid] }) tid rfl (by norm_num [mkWorld])]
      show imageStageBody c1 (mkWorld (updTile ts tid (fun t => { t with state := some .IMAGE_LOADING })) zmin) tid = _
      rw [imageStageBody_fetch c1 (mkWorld (updTile ts tid (fun t => { t with state := some .IMAGE_LOADING })) zmin) tid hc1
          (by simpa [mkWorld, updTile] using hbase)]
      exact rfl
    rw [E2]
    have E3 : onload (mkWorld (updTile (updTile ts tid (fun t => { t with state := some .IMAGE_LOADING })) tid
          (fun t => { t with image := some .handle,
                             projection := if t.projection = none then some .provider else t.projection })) zmin) tid = mkWorld (updTile (updTile (updTile ts tid (fun t => { t with state := some .IMAGE_LOADING })) tid
          (fun t => { t with image := some .handle,
                             projection := if t.projection = none then some .provider else t.projection })) tid
          (fun t => { t with state := some .IMAGE_LOADED })) zmin := rfl
    rw [E3]
    have E4 : processTile n2 (mkWorld (updTile (updTile (updTile ts tid (fun t => { t with state := some .IMAGE_LOADING })) tid
          (fun t => { t with image := some .handle,
                             projection := if t.projection = none then some .provider else t.projection })) tid
          (fun t => { t with state := some .IMAGE_LOADED })) zmin) tid
        = { mkWorld (updTile (updTile (updTile (updTile ts tid (fun t => { t with state := some .IMAGE_LOADING })) tid
          (fun t => { t with image := some .handle,
                             projection := if t.projection = none then some .provider else t.projection })) tid
          (fun t => { t with state := some .IMAGE_LOADED })) tid
          (fun t => { t with state := some .REPROJECTING })) zmin with reprojectQueue := [tid] } := by
      rw [processTile_imageLoaded n2 (mkWorld (updTile (updTile (updTile ts tid (fun t => { t with state := some .IMAGE_LOADING })) tid
          (fun t => { t with image := some .handle,
                             projection := if t.projection = none then some .provider else t.projection })) tid
          (fun t => { t with state := some .IMAGE_LOADED })) zmin) tid rfl (by simp [mkWorld, updTile])]
      exact rfl
    rw [E4]
    have E5 : throttleReprojection c2 ({ mkWorld (updTile (updTile (updTile (updTile ts tid (fun t => { t with state := some .IMAGE_LOADING })) tid
          (fun t => { t with image := some .handle,
                             projection := if t.projection = none then some .provider else t.projection })) tid
          (fun t => { t with state := some .IMAGE_LOADED })) tid
          (fun t => { t with state := some .REPROJECTING })) zmin with reprojectQueue := [tid] })
        = mkWorld (updTile (updTile (updTile (updTile (updTile ts tid (fun t => { t with state := some .IMAGE_LOADING })) tid
          (fun t => { t with image := some .handle,
                             projection := if t.projection = none then some .provider else t.projection })) tid
          (fun t => { t with state := some .IMAGE_LOADED })) tid
          (fun t => { t with state := some .REPROJECTING })) tid
            (fun t => { t with image := none, state := some .READY })) zmin := by
      rw [throttleReprojection_singleton c2
          ({ mkWorld (updTile (updTile (updTile (updTile ts tid (fun t => { t with state := some .IMAGE_LOADING })) tid
          (fun t => { t with image := some .handle,
                             projection := if t.projection = none then some .provider else t.projection })) tid
          (fun t => { t with state := some .IMAGE_LOADED })) tid
          (fun t => { t with state := some .REPROJECTING })) zmin with reprojectQueue := [tid] }) tid rfl (by norm_num [mkWorld])]
      show reprojectStageBody c2 (mkWorld (updTile (updTile (updTile (updTile ts tid (fun t => { t with state := some .IMAGE_LOADING })) tid
          (fun t => { t with image := some .handle,
                             projection := if t.projection = none then some .provider else t.projection })) tid
          (fun t => { t with state := some .IMAGE_LOADED })) tid
          (fun t => { t with state := some .REPROJECTING })) zmin) tid = _
      rw [reprojectStageBody_culled c2 (mkWorld (updTile (updTile (updTile (updTile ts tid (fun t => { t with state := some .IMAGE_LOADING })) tid
          (fun t => { t with image := some .handle,
                             projection := if t.projection = none then some .provider else t.projection })) tid
          (fun t => { t with state := some .IMAGE_LOADED })) tid
          (fun t => { t with state := some .REPROJECTING })) zmin) tid hc2]
      exact rfl
    rw [E5]
    refine ⟨?_, ?_, ?_⟩ <;> simp [mkWorld, updTile, htex]

/-- A uniform population of unloaded zoom-3 tiles, used by witnesses. -/
def steadyTiles : Nat → TileData := fun _ => { zoom := 3, x := 1, y := 1, state := some .READY }

/-- Witness for C5: running tile 0 through the full trace from
`steadyTiles` with nothing culled ends in `TEXTURE_LOADED`. -/
theorem pipeline_round_trip_witness :
    (steadyTiles 0).state = some .READY ∧
    ((throttleTextures (fun _ => false) (processTile 0 (throttleReprojection (fun _ => false)
        (processTile 0 (onload (throttleImages (fun _ => false)
        (processTile 0 (mkWorld steadyTiles 0) 0)) 0) 0)) 0)).tiles 0).state
      = some .TEXTURE_LOADED :=
  ⟨rfl, (pipeline_round_trip steadyTiles 0 0 0 0 0 (fun _ => false) (fun _ => false)
      (fun _ => false) rfl rfl rfl rfl (by simp [steadyTiles])).1⟩

/-- Witness for C6: with an always-true cull the fetch drain body resets
tile 0 to `READY`, and the in-flight scenario ends in `READY`. -/
theorem culling_abort_resets_tiles_witness :
    ((fun _ => (true : Bool)) 0 = true) ∧
    ((imageStageBody (fun _ => true) witnessWorld 0).tiles 0).state = some .READY ∧
    ((throttleReprojection (fun _ => true) (processTile 0 (onload (throttleImages (fun _ => false)
        (processTile 0 (mkWorld steadyTiles 0) 0)) 0) 0)).tiles 0).state = some .READY := by
  have H := culling_abort_resets_tiles (fun _ => true) witnessWorld steadyTiles 0 0 0 0
      (fun _ => false) (fun _ => true) rfl rfl rfl rfl (by simp [steadyTiles]) rfl
  exact ⟨rfl, H.1.1, H.2.2.2.1⟩

/-!  Lemmas about the ancestor-touching walk of `hit`.  -/

lemma touchChain_not_suffix : ∀ (tid : TileId) (ts : TileId → CTile) (time : JDate)
    (a : TileId), ¬ a <:+ tid → touchChain ts tid time a = ts a := by
  intro tid
  induction tid with
  | nil =>
    intro ts time a ha
    have hne : a ≠ [] := by
      intro h
      exact ha (h ▸ List.suffix_rfl)
    simp [touchChain, updCTile, hne]
  | cons x p ih =>
    intro ts time a ha
    have h1 : ¬ a <:+ p := fun h => ha (h.trans (List.suffix_cons x p))
    have h2 : a ≠ x :: p := fun h => ha (h ▸ List.suffix_rfl)
    rw [touchChain, ih _ _ _ h1]
    simp [updCTile, h2]

lemma touchChain_suffix : ∀ (tid : TileId) (ts : TileId → CTile) (time : JDate)
    (a : TileId), a <:+ tid → (touchChain ts tid time a).lastHit = some time := by
  intro tid
  induction tid with
  | nil =>
    intro ts time a ha
    have : a = [] := List.suffix_nil.mp ha
    subst this
    simp [touchChain, updCTile]
  | cons x p ih =>
    intro ts time a ha
    rcases List.suffix_cons_iff.mp ha with h | h
    · have hns : ¬ a <:+ p := by
        subst h
        intro hs
        have := hs.length_le
        simp at this
      rw [touchChain, touchChain_not_suffix _ _ _ _ hns]
      subst h
      simp [updCTile]
    · exact ih _ _ _ h

lemma removeCb_lastHit (ts : TileId → CTile) (tid a : TileId) :
    ((removeCb ts tid) a).lastHit = (ts a).lastHit := by
  unfold removeCb updCTile
  split <;> rfl

/-- C9: every cache hit stamps the current time not only on the entry's
own tile but on every ancestor reachable through parent links up to the
root (and on no other tile); the insertion path of `miss` invokes the
same routine, so the new key's whole ancestor chain carries the hit
stamp in the resulting world, whichever branch `miss` takes. -/
theorem hit_touches_all_ancestors (w : CWorld) (fetch : TileId → Texture) (name : String)
    (tid key : TileId) (time t0 thit : JDate) :
    (∀ a : TileId, a <:+ tid → ((policyHit w tid time).tiles a).lastHit = some time) ∧
    (∀ a : TileId, ¬ a <:+ tid → (policyHit w tid time).tiles a = w.tiles a) ∧
    (∀ a : TileId, a <:+ key →
      ((policyMiss fetch name key t0 thit w).world.tiles a).lastHit = some thit) := by
  refine ⟨fun a ha => touchChain_suffix _ _ _ _ ha,
          fun a ha => touchChain_not_suffix _ _ _ _ ha, ?_⟩
  intro a ha
  unfold policyMiss
  dsimp only
  split
  · exact touchChain_suffix _ _ _ _ ha
  · split
    · exact touchChain_suffix _ _ _ _ ha
    · rw [removeCb_lastHit]
      exact touchChain_suffix _ _ _ _ ha

/-- Witness for C9: touching tile `[1, 2]` stamps its parent `[2]`. -/
theorem hit_touches_all_ancestors_witness :
    ([2] <:+ [1, 2]) ∧
    ((policyHit { tiles := fun _ => {} } [1, 2] 5).tiles [2]).lastHit = some 5 :=
  ⟨⟨[1], rfl⟩,
   (hit_touches_all_ancestors { tiles := fun _ => {} } (fun _ => 0) "n" [1, 2] [] 5 0 0).1
     [2] ⟨[1], rfl⟩⟩

/-!  The eviction scan of `miss`.  -/

lemma victimStep_snd (tiles : TileId → CTile) (acc : JDate × String) (kv : String × CEntry) :
    (victimStep tiles acc kv).snd = acc.snd ∨
    ((victimStep tiles acc kv).snd = kv.fst ∧ 2 < kv.snd.key.length) := by
  unfold victimStep
  split
  · split
    · next h => exact Or.inr ⟨rfl, h.2⟩
    · exact Or.inl rfl
  · exact Or.inl rfl

lemma victimFold_cases (tiles : TileId → CTile) :
    ∀ (l : List (String × CEntry)) (acc : JDate × String),
      (l.foldl (victimStep tiles) acc).snd = acc.snd ∨
      ∃ kv ∈ l, (l.foldl (victimStep tiles) acc).snd = kv.fst ∧ 2 < kv.snd.key.length := by
  intro l
  induction l with
  | nil => intro acc; exact Or.inl rfl
  | cons kv rest ih =>
    intro acc
    rw [List.foldl_cons]
    rcases ih (victimStep tiles acc kv) with h | ⟨kv', hm, he, hz⟩
    · rcases victimStep_snd tiles acc kv with h2 | ⟨h2, hz⟩
      · exact Or.inl (h.trans h2)
      · exact Or.inr ⟨kv, List.mem_cons_self kv rest, h.trans h2, hz⟩
    · exact Or.inr ⟨kv', List.mem_cons_of_mem kv hm, he, hz⟩

lemma jsLookup_eq_none_of_not_mem (l : List (String × CEntry)) (n : String)
    (h : n ∉ l.map Prod.fst) : jsLookup l n = none := by
  unfold jsLookup
  rw [List.find?_eq_none.mpr]
  · rfl
  · intro kv hkv hbeq
    exact h (List.mem_map.mpr ⟨kv, hkv, by simpa using hbeq⟩)

lemma jsLookup_of_mem_nodup :
    ∀ (l : List (String × CEntry)), (l.map Prod.fst).Nodup →
      ∀ kv ∈ l, jsLookup l kv.fst = some kv.snd := by
  intro l
  induction l with
  | nil => intro _ kv h; cases h
  | cons hd tl ih =>
    intro hnd kv hkv
    rcases List.mem_cons.mp hkv with h | h
    · subst h
      simp [jsLookup, List.find?]
    · have hne : hd.fst ≠ kv.fst := by
        intro he
        have : kv.fst ∈ tl.map Prod.fst := List.mem_map.mpr ⟨kv, h, rfl⟩
        rw [List.map_cons] at hnd
        exact (List.nodup_cons.mp hnd).1 (he ▸ this)
      have := ih (by rw [List.map_cons] at hnd; exact (List.nodup_cons.mp hnd).2) kv h
      unfold jsLookup at this ⊢
      rw [List.find?_cons_of_neg _ (by simpa using hne)]
      exact this

/-- C2: the eviction scan never chooses a protected tile.  Whenever a
`miss` at capacity actually selects and evicts a victim (the backing
object has unique names and none of them is the scan's empty-string
sentinel), the evicted tile's zoom is strictly greater than the
protected minimum 2; a tile at or below zoom 2 is never the victim. -/
theorem eviction_victim_above_protected_zoom
    (fetch : TileId → Texture) (name : String) (key : TileId) (t0 thit : JDate)
    (w : CWorld)
    (hnodup : (w.entries.map Prod.fst).Nodup)
    (hnoempty : "" ∉ w.entries.map Prod.fst)
    (v : TileId)
    (hev : (policyMiss fetch name key t0 thit w).evicted = some v) :
    2 < v.length := by
  unfold policyMiss at hev
  dsimp only at hev
  rw [selectVictim] at hev
  split at hev
  · cases hev
  · split at hev
    · cases hev
    · next e hlook =>
      cases hev
      rcases victimFold_cases (touchChain w.tiles key thit) w.entries (t0, "") with h | ⟨kv, hm, he, hz⟩
      · rw [h, jsLookup_eq_none_of_not_mem _ _ hnoempty] at hlook
        cases hlook
      · rw [he, jsLookup_of_mem_nodup w.entries hnodup kv hm] at hlook
        cases hlook
        exact hz

/-- The concrete cache world used by the cache witnesses: one resident
entry named `"a"` for the zoom-3 tile `[0, 0, 0]` last hit at time 0,
capacity 1 already reached. -/
def cacheWitnessWorld : CWorld :=
  { tiles := fun _ => { lastHit := some 0 },
    entries := [("a", ⟨[0, 0, 0], 7⟩)],
    count := 1, limit := 1 }

/-- Witness for C2: the miss for tile `[9]` at time 3 evicts the
zoom-3 entry, whose path length exceeds 2. -/
theorem eviction_victim_above_protected_zoom_witness :
    ((cacheWitnessWorld.entries.map Prod.fst).Nodup ∧
     (policyMiss (fun _ => 0) "b" [9] 3 3 cacheWitnessWorld).evicted = some [0, 0, 0]) ∧
    2 < [0, 0, 0].length := by
  have h1 : (cacheWitnessWorld.entries.map Prod.fst).Nodup := by decide
  have h2 : (policyMiss (fun _ => 0) "b" [9] 3 3 cacheWitnessWorld).evicted = some [0, 0, 0] := by
    decide
  exact ⟨⟨h1, h2⟩,
    eviction_victim_above_protected_zoom (fun _ => 0) "b" [9] 3 3 cacheWitnessWorld h1
      (by decide) [0, 0, 0] h2⟩

/-!  Residency bookkeeping of the backing object.  -/

lemma jsInsert_length_le (l : List (String × CEntry)) (n : String) (v : CEntry) :
    (jsInsert l n v).length ≤ l.length + 1 := by
  unfold jsInsert
  split
  · rw [List.length_map]; omega
  · rw [List.length_append]; simp

lemma jsLookup_some_mem {l : List (String × CEntry)} {n : String} {e : CEntry}
    (h : jsLookup l n = some e) : n ∈ l.map Prod.fst := by
  unfold jsLookup at h
  cases hf : l.find? (fun kv => kv.fst == n) with
  | none => rw [hf] at h; cases h
  | some kv =>
    have hm := List.mem_of_find?_eq_some hf
    have hp := List.find?_some hf
    exact List.mem_map.mpr ⟨kv, hm, by simpa using hp⟩

lemma jsDelete_length_lt :
    ∀ (l : List (String × CEntry)) (n : String), n ∈ l.map Prod.fst →
      (jsDelete l n).length < l.length := by
  intro l
  induction l with
  | nil => intro n h; cases h
  | cons hd tl ih =>
    intro n h
    rcases List.mem_map.mp h with ⟨kv, hkv, he⟩
    rcases List.mem_cons.mp hkv with h1 | h1
    · subst h1
      unfold jsDelete
      rw [List.filter_cons_of_neg (by simp [he])]
      have hle : (List.filter (fun kv => !(kv.fst == n)) tl).length ≤ tl.length :=
        List.length_filter_le _ _
      simpa using Nat.lt_succ_of_le hle
    · unfold jsDelete
      by_cases hb : hd.fst = n
      · rw [List.filter_cons_of_neg (by simp [hb])]
        have hle : (List.filter (fun kv => !(kv.fst == n)) tl).length ≤ tl.length :=
          List.length_filter_le _ _
        simpa using Nat.lt_succ_of_le hle
      · rw [List.filter_cons_of_pos (by simpa using hb)]
        have hlt := ih n (List.mem_map.mpr ⟨kv, h1, he⟩)
        unfold jsDelete at hlt
        simpa using Nat.succ_lt_succ hlt

lemma policyMiss_inv (fetch : TileId → Texture) (name : String) (key : TileId)
    (t0 thit : JDate) (w : CWorld) (h : CacheInv w) :
    CacheInv (policyMiss fetch name key t0 thit w).world ∧
    (policyMiss fetch name key t0 thit w).world.limit = w.limit := by
  obtain ⟨hlen, hcnt⟩ := h
  unfold policyMiss
  dsimp only
  split
  · next hlt =>
    dsimp only at hlt ⊢
    refine ⟨⟨?_, ?_⟩, rfl⟩
    · calc (jsInsert w.entries name ⟨key, fetch key⟩).length
          ≤ w.entries.length + 1 := jsInsert_length_le _ _ _
        _ ≤ w.count + 1 := by omega
    · exact hlt
  · split
    · exact ⟨⟨hlen, hcnt⟩, rfl⟩
    · next e hlook =>
      dsimp only
      refine ⟨⟨?_, hcnt⟩, rfl⟩
      have hmem := jsLookup_some_mem hlook
      have hdel := jsDelete_length_lt w.entries _ hmem
      calc (jsInsert (jsDelete w.entries
              (selectVictim (touchChain w.tiles key thit) t0 w.entries).snd) name
              ⟨key, fetch key⟩).length
          ≤ (jsDelete w.entries
              (selectVictim (touchChain w.tiles key thit) t0 w.entries).snd).length + 1 :=
            jsInsert_length_le _ _ _
        _ ≤ w.entries.length := by omega
        _ ≤ w.count := hlen

lemma cacheStep_inv (fetch : TileId → Texture) (w : CWorld) (op : COp)
    (h : CacheInv w) :
    CacheInv (cacheStep fetch w op) ∧ (cacheStep fetch w op).limit = w.limit := by
  cases op with
  | opHit tid t => exact ⟨h, rfl⟩
  | opMiss name key t0 thit => exact policyMiss_inv fetch name key t0 thit w h

lemma policyMiss_evicted_reset (fetch : TileId → Texture) (name : String) (key : TileId)
    (t0 thit : JDate) (w : CWorld) (v : TileId)
    (hev : (policyMiss fetch name key t0 thit w).evicted = some v) :
    ((policyMiss fetch name key t0 thit w).world.tiles v).state = some .READY ∧
    ((policyMiss fetch name key t0 thit w).world.tiles v).texture = none ∧
    ((policyMiss fetch name key t0 thit w).world.tiles v).projection = none := by
  unfold policyMiss at hev ⊢
  dsimp only at hev ⊢
  split at hev
  · cases hev
  · next hnc =>
    split at hev
    · cases hev
    · next e hlook =>
      cases hev
      rw [if_neg hnc]
      refine ⟨?_, ?_, ?_⟩ <;> simp [removeCb, updCTile]

/-- C3: capacity and eviction postcondition.  From any state satisfying
the residency invariant, any sequence of cache operations keeps the
number of resident entries at or below the configured limit (which no
operation changes); and whenever a `miss` evicts an entry, the remove
callback leaves the evicted tile in state `READY` with its texture and
projection cleared. -/
theorem cache_capacity_and_eviction_postcondition
    (fetch : TileId → Texture) (ops : List COp) (w : CWorld) (h : CacheInv w) :
    CacheInv (ops.foldl (cacheStep fetch) w) ∧
    (ops.foldl (cacheStep fetch) w).entries.length ≤ w.limit ∧
    (∀ (name : String) (key : TileId) (t0 thit : JDate) (w' : CWorld) (v : TileId),
      (policyMiss fetch name key t0 thit w').evicted = some v →
      ((policyMiss fetch name key t0 thit w').world.tiles v).state = some .READY ∧
      ((policyMiss fetch name key t0 thit w').world.tiles v).texture = none ∧
      ((policyMiss fetch name key t0 thit w').world.tiles v).projection = none) := by
  have hfold : ∀ (l : List COp) (u : CWorld), CacheInv u →
      CacheInv (l.foldl (cacheStep fetch) u) ∧
      (l.foldl (cacheStep fetch) u).limit = u.limit := by
    intro l
    induction l with
    | nil => intro u hu; exact ⟨hu, rfl⟩
    | cons op rest ih =>
      intro u hu
      rw [List.foldl_cons]
      obtain ⟨h1, h2⟩ := cacheStep_inv fetch u op hu
      obtain ⟨h3, h4⟩ := ih (cacheStep fetch u op) h1
      exact ⟨h3, h4.trans h2⟩
  obtain ⟨hinv, hlim⟩ := hfold ops w h
  refine ⟨hinv, ?_, fun name key t0 thit w' v hev =>
    policyMiss_evicted_reset fetch name key t0 thit w' v hev⟩
  calc (ops.foldl (cacheStep fetch) w).entries.length
      ≤ (ops.foldl (cacheStep fetch) w).count := hinv.1
    _ ≤ (ops.foldl (cacheStep fetch) w).limit := hinv.2
    _ = w.limit := hlim

/-- Witness for C3: two misses and a hit against the one-slot cache
keep residency at the limit, and the second miss evicts the first
tile, leaving it `READY`. -/
theorem cache_capacity_and_eviction_postcondition_witness :
    CacheInv cacheWitnessWorld ∧
    (([COp.opMiss "b" [9] 3 3, COp.opHit [9] 4,
       COp.opMiss "c" [8, 8, 8] 5 5].foldl (cacheStep (fun _ => 0))
        cacheWitnessWorld).entries.length ≤ cacheWitnessWorld.limit) ∧
    (((policyMiss (fun _ => 0) "b" [9] 3 3 cacheWitnessWorld).world.tiles
        [0, 0, 0]).state = some .READY) := by
  have hinv : CacheInv cacheWitnessWorld := by constructor <;> decide
  have H := cache_capacity_and_eviction_postcondition (fun _ => 0)
      [COp.opMiss "b" [9] 3 3, COp.opHit [9] 4, COp.opMiss "c" [8, 8, 8] 5 5]
      cacheWitnessWorld hinv
  exact ⟨hinv, H.2.1,
    (H.2.2 "b" [9] 3 3 cacheWitnessWorld [0, 0, 0] (by decide)).1⟩

/-!  The no-eligible-victim failure path of `miss`.  -/

lemma selectVictim_stays (tiles : TileId → CTile) (t0 : JDate) :
    ∀ (entries : List (String × CEntry)),
      (∀ kv ∈ entries, ∀ s, (tiles kv.snd.key).lastHit = some s →
        ¬ (s < t0 ∧ 2 < kv.snd.key.length)) →
      selectVictim tiles t0 entries = (t0, "") := by
  intro entries
  induction entries with
  | nil => intro _; rfl
  | cons kv rest ih =>
    intro h
    have hstep : victimStep tiles (t0, "") kv = (t0, "") := by
      unfold victimStep
      cases hl : (tiles kv.snd.key).lastHit with
      | none => rfl
      | some s =>
        dsimp only
        rw [if_neg (h kv (List.mem_cons_self kv rest) s hl)]
    unfold selectVictim
    rw [List.foldl_cons, hstep]
    exact ih (fun kv' hm => h kv' (List.mem_cons_of_mem kv hm))

/-- C10: a miss at capacity with no eligible victim crashes instead of
inserting.  If every resident entry fails the scan condition (its tile
is at or below the protected zoom, or its last hit is not strictly
earlier than the scan's start time) and no entry is named by the
empty-string sentinel, the victim index stays `''`, `object[index]` is
undefined, and the installed remove callback dereferences it — the call
throws, leaving the entries, the count and the returned value
unproduced; only the new key's ancestor chain has been stamped. -/
theorem miss_with_no_victim_errors
    (fetch : TileId → Texture) (name : String) (key : TileId) (t0 thit : JDate)
    (w : CWorld)
    (hcap : ¬ w.count < w.limit)
    (hnovic : ∀ kv ∈ w.entries, ∀ s,
        ((touchChain w.tiles key thit) kv.snd.key).lastHit = some s →
        ¬ (s < t0 ∧ 2 < kv.snd.key.length))
    (hnoempty : "" ∉ w.entries.map Prod.fst) :
    (policyMiss fetch name key t0 thit w).errored = true ∧
    (policyMiss fetch name key t0 thit w).world.entries = w.entries ∧
    (policyMiss fetch name key t0 thit w).world.count = w.count ∧
    (policyMiss fetch name key t0 thit w).value = none := by
  have hsel : selectVictim (touchChain w.tiles key thit) t0 w.entries = (t0, "") :=
    selectVictim_stays _ _ _ hnovic
  have hlook : jsLookup w.entries
      (selectVictim (touchChain w.tiles key thit) t0 w.entries).snd = none := by
    rw [hsel]
    exact jsLookup_eq_none_of_not_mem _ _ hnoempty
  unfold policyMiss
  dsimp only
  rw [if_neg hcap, hlook]
  exact ⟨rfl, rfl, rfl, rfl⟩

/-- A one-slot cache holding only the protected zoom-1 tile `[0]`. -/
def cacheWitnessWorldLow : CWorld :=
  { tiles := fun _ => { lastHit := some 0 },
    entries := [("a", ⟨[0], 7⟩)],
    count := 1, limit := 1 }

/-- Witness for C10: the one-slot cache holds only the zoom-1 tile
`[0]`, which the scan protects, so the miss for `[9, 9, 9]` errors and
inserts nothing. -/
theorem miss_with_no_victim_errors_witness :
    (¬ cacheWitnessWorldLow.count < cacheWitnessWorldLow.limit) ∧
    (policyMiss (fun _ => 0) "b" [9, 9, 9] 5 5 cacheWitnessWorldLow).errored = true ∧
    (policyMiss (fun _ => 0) "b" [9, 9, 9] 5 5 cacheWitnessWorldLow).world.entries
      = cacheWitnessWorldLow.entries := by
  have H := miss_with_no_victim_errors (fun _ => 0) "b" [9, 9, 9] 5 5
      cacheWitnessWorldLow (by decide) ?nv (by decide)
  case nv =>
    intro kv hkv s hs
    simp [cacheWitnessWorldLow] at hkv
    subst hkv
    intro hcon
    simp at hcon
  exact ⟨by decide, H.1, H.2.1⟩
